import Mathlib

/-!
Verification of the weather city-list web application (`src/main.py`,
`src/models.py`) against its natural-language specification.

Modelling conventions for the shallow embedding:
* `Float` columns (latitude, longitude, temperature) are modelled as `Int`:
  none of the specified properties depend on floating-point rounding, only on
  equality and ordering of the stored numbers.
* `DateTime` values are modelled as `Int` seconds (city timestamps) or `Nat`
  seconds (token clock); `datetime.utcnow()` becomes an explicit `now`
  parameter.
* The SQLite database is modelled as Lean lists held in insertion (rowid)
  order; an un-`ORDER BY`-ed query with `.first()` scans in that order, and
  `ORDER BY ... DESC` is a stable sort of that order (SQLite treats NULL as
  smaller than every value, so `DESC` puts NULLs last, and a single-table scan
  feeds the sorter rows in stored order).
* A `db.commit()` durably applies every change made since the previous commit;
  an exception raised before a commit means those pending changes are rolled
  back when `get_db` closes the session.
-/

/-- City row of `models.py` (`cities` table): owner-scoped city with an
optional cached temperature and its optional fetch timestamp. -/
structure City where
  id : Nat
  name : String
  latitude : Int
  longitude : Int
  temperature : Option Int
  updated_at : Option Int
  user_id : Nat
deriving DecidableEq

/-- Default city row of `models.py` (`default_cities` table): a shared
template (name, coordinates) copied into each new user's list. -/
structure DefaultCity where
  id : Nat
  name : String
  latitude : Int
  longitude : Int
deriving DecidableEq

/-- City built from one `DefaultCity` template for owner `uid`
(`City(name=city.name, latitude=..., longitude=..., user_id=user.id)` at
`main.py:149` and `main.py:192`): temperature and `updated_at` start absent. -/
def cityFromDefault (cid uid : Nat) (d : DefaultCity) : City :=
  { id := cid, name := d.name, latitude := d.latitude, longitude := d.longitude,
    temperature := none, updated_at := none, user_id := uid }

/-- Cities seeded from the template list for owner `uid`, ids assigned
sequentially from `base` by the autoincrement primary key. -/
def seedCities (base uid : Nat) (defaults : List DefaultCity) : List City :=
  defaults.enum.map (fun p => cityFromDefault (base + p.1) uid p.2)

/-- Embedding of `add_city` (`main.py:120-127`): inserts a city owned by
`uid` with absent temperature and `updated_at`, then commits; `cid` is the
id assigned by the autoincrement primary key. -/
def add_city (uid cid : Nat) (name : String) (lat lon : Int)
    (db : List City) : List City :=
  db ++ [{ id := cid, name := name, latitude := lat, longitude := lon,
           temperature := none, updated_at := none, user_id := uid }]

/-- Embedding of `remove_city` (`main.py:130-138`): the query
`filter(City.id == city_id, City.user_id == user.id).first()` finds the first
row (stored order) matching both id and owner; if found it is deleted and the
change committed. The returned `Bool` is the `if city:` condition, i.e.
whether a deletion occurred. -/
def remove_city (uid cid : Nat) : List City → Bool × List City
  | [] => (false, [])
  | c :: cs =>
    if c.id = cid ∧ c.user_id = uid then (true, cs)
    else
      let r := remove_city uid cid cs
      (r.1, c :: r.2)

/-- Number of per-template commits that complete in `reset_cities`: the loop
at `main.py:148-150` commits once per template, and `failAt = some k` means
the commit of iteration `k` (0-based) raises. -/
def commitsDone (failAt : Option Nat) (n : Nat) : Nat :=
  match failAt with
  | none => n
  | some k => min k n

/-- Embedding of `reset_cities` (`main.py:142-151`): a bulk delete of the
user's cities is issued (pending, uncommitted), then for each `DefaultCity`
template one new city is added and `db.commit()` is called inside the loop.
The committed state after the run: if no commit completes (failure at the
first commit, or an empty template list — the loop body never runs, so the
pending delete is rolled back at session close) the database is unchanged;
otherwise the first completed commit made the bulk delete durable and each
completed commit `i` made template `i`'s insert durable. -/
def reset_cities (uid nextId : Nat) (defaults : List DefaultCity)
    (failAt : Option Nat) (db : List City) : List City :=
  let m := commitsDone failAt defaults.length
  if m = 0 then db
  else db.filter (fun c => c.user_id ≠ uid) ++ seedCities nextId uid (defaults.take m)

/-- Staleness test of `update_weather`'s query (`main.py:159-160`):
`or_(City.temperature == None, City.updated_at < delta)` with
`delta = utcnow() - timedelta(minutes=1)`. Under SQL three-valued logic a
NULL `updated_at` makes the comparison NULL (not satisfied), matching the
`none` branch below. -/
def isStale (now : Int) (c : City) : Bool :=
  c.temperature == none ||
    match c.updated_at with
    | none => false
    | some t => t < now - 60

/-- Query of `update_weather` (`main.py:160`), the spec's
`selectStale(owner, now)`: the owner's cities whose temperature is absent or
whose `updated_at` is earlier than `now - 60` seconds. -/
def selectStale (uid : Nat) (now : Int) (db : List City) : List City :=
  db.filter (fun c => c.user_id = uid ∧ isStale now c)

/-- Refresh loop of `update_weather` (`main.py:161-163`) as the state it
leaves in the ORM session: each selected city gets
`temperature := fetch(lat, lon)` and `updated_at := now`; a failing fetch
raises, aborting the loop before `db.commit()`, which `none` records. -/
def refreshLoop (fetch : Int → Int → Except Unit Int) (now : Int) (uid : Nat) :
    List City → Option (List City)
  | [] => some []
  | c :: cs =>
    if c.user_id = uid ∧ isStale now c then
      match fetch c.latitude c.longitude with
      | .error _ => none
      | .ok t =>
          (refreshLoop fetch now uid cs).map
            (fun rest => { c with temperature := some t, updated_at := some now } :: rest)
    else (refreshLoop fetch now uid cs).map (fun rest => c :: rest)

/-- Embedding of `update_weather` (`main.py:155-165`) as the committed state:
the single `db.commit()` sits after the whole loop, so if every selected
city's fetch succeeds the session state is committed, and if any fetch raises
the commit is never reached and the session's pending changes are discarded,
leaving the stored state as it was. -/
def update_weather (fetch : Int → Int → Except Unit Int) (now : Int)
    (uid : Nat) (db : List City) : List City :=
  match refreshLoop fetch now uid db with
  | some db2 => db2
  | none => db

/-- Row order produced by `order_by(desc(City.temperature))` (`main.py:233`)
on SQLite: `a` may precede `b` when `a`'s key is ≥ `b`'s under the SQL
ordering in which NULL is below every number, read in descending direction —
so absent temperatures sort last. -/
def tempDescLe (a b : City) : Bool :=
  match a.temperature, b.temperature with
  | none, none => true
  | none, some _ => false
  | some _, none => true
  | some x, some y => y ≤ x

/-- Embedding of the city list of `read_root` (`main.py:233`), the spec's
`listFor(owner)`: the owner's cities ordered by temperature descending,
NULLs last, ties kept in stored order (stable sort of the stored order). -/
def listFor (uid : Nat) (db : List City) : List City :=
  (db.filter (fun c => c.user_id = uid)).mergeSort tempDescLe

/-!
Session token model. `create_token`/`validate_token` (`main.py:68-78`) call
the third-party `itsdangerous.URLSafeTimedSerializer`, which is modelled here
from its documented behaviour: a token is three dot-separated fields —
payload, issuance timestamp, signature — where the signature is a MAC of the
payload and timestamp keyed by the server secret and a salt. The MAC is
idealised as a collision-free injective pairing (an ideal MAC); fields are
decimal digit strings standing for the serializer's URL-safe encodings.
The payload `{"user_id": user_id}` is modelled as the bare `user_id`.
-/

/-- Server-side signing key of `main.py:52` (`SECRET_KEY = "123456"`),
modelled as the number it spells. -/
def SECRET_KEY : Nat := 123456

/-- Opaque numeric tag standing for the salt string `"salt_registration"`
passed at `main.py:69` and `main.py:74`. -/
def saltRegistration : Nat := 17

/-- Idealised MAC over payload and timestamp, keyed by the secret and salt:
a collision-free injective pairing models a perfect signature. -/
def tokenSig (payload time : Nat) : Nat :=
  Nat.pair SECRET_KEY (Nat.pair saltRegistration (Nat.pair payload time))

/-- Decimal digits of `n` as bytes (most significant first), with enough
`fuel` to exhaust the divisions by 10. -/
def encNatCore : Nat → Nat → List Nat
  | 0, _ => []
  | _ + 1, 0 => []
  | fuel + 1, n => encNatCore fuel (n / 10) ++ [n % 10 + 48]

/-- Decimal-digit byte encoding of a number (bytes 48–57, most significant
first), standing for the serializer's URL-safe field encoding. -/
def encNat (n : Nat) : List Nat :=
  if n = 0 then [48] else encNatCore (n + 1) n

/-- Value of a decimal-digit byte field. -/
def decDigits (l : List Nat) : Nat :=
  l.foldl (fun acc d => acc * 10 + (d - 48)) 0

/-- A well-formed field: nonempty and all decimal-digit bytes. -/
def digitsField (l : List Nat) : Bool :=
  !l.isEmpty && l.all (fun d => 48 ≤ d && d ≤ 57)

/-- Model of `URLSafeTimedSerializer.dumps` at issuance time `now`:
payload field, timestamp field, signature field, dot-separated (dot = 46). -/
def serializerDumps (payload now : Nat) : List Nat :=
  encNat payload ++ [46] ++ encNat now ++ [46] ++ encNat (tokenSig payload now)

/-- Errors raised by `URLSafeTimedSerializer.loads`: `BadSignature` for a
malformed token or signature mismatch, `SignatureExpired` (a subclass of
`BadSignature`) when `max_age` is exceeded. -/
inductive LoadErr where
  | badSignature
  | signatureExpired
deriving DecidableEq

/-- Model of `URLSafeTimedSerializer.loads` with `max_age` checking, at
current time `now`: parse the three dot-separated fields, verify the
signature over payload and timestamp, then reject tokens whose age exceeds
`maxAge` seconds (strictly). -/
def serializerLoads (tok : List Nat) (maxAge now : Nat) : Except LoadErr Nat :=
  match tok.splitOn 46 with
  | [p, t, s] =>
    if digitsField p && digitsField t && digitsField s then
      if decDigits s = tokenSig (decDigits p) (decDigits t) then
        if now - decDigits t > maxAge then .error .signatureExpired
        else .ok (decDigits p)
      else .error .badSignature
    else .error .badSignature
  | _ => .error .badSignature

/-- Python exception escaping a handler. -/
inductive PyExc where
  | nameError
deriving DecidableEq

/-- Embedding of `create_token` (`main.py:68-69`): serialize the user id with
the registration salt at issuance time `now`. -/
def create_token (user_id : Nat) (now : Nat) : List Nat :=
  serializerDumps user_id now

/-- Embedding of `validate_token` (`main.py:72-78`). On a successful `loads`
the payload is returned. When `loads` raises, the `except SignatureExpired:`
clause is evaluated — but `main.py:10` imports only `URLSafeTimedSerializer`
from `itsdangerous`, so the name `SignatureExpired` is undefined and
evaluating the handler raises `NameError`; the `return None` bodies are
unreachable and the function never returns `None` for a bad token. -/
def validate_token (tok : List Nat) (now : Nat) : Except PyExc (Option Nat) :=
  match serializerLoads tok 3600 now with
  | .ok payload => .ok (some payload)
  | .error _ => .error PyExc.nameError

/-!
Credential and user model. `passlib` bcrypt is modelled as an ideal
collision-free hash: `verify_password` succeeds exactly on the hashed
plaintext (the randomized salt is irrelevant to the verified claims).
-/

/-- Stored password hash, idealised as remembering exactly which plaintext
it hashes (an ideal collision-free one-way hash). -/
structure PHash where
  plain : List Char
deriving DecidableEq

/-- Embedding of `hash_password` (`main.py:101-102`). -/
def hash_password (password : List Char) : PHash :=
  ⟨password⟩

/-- Embedding of `verify_password` (`main.py:105-106`): true iff the
plaintext re-hashes to the stored hash. -/
def verify_password (plain_password : List Char) (hashed_password : PHash) : Bool :=
  hashed_password.plain == plain_password

/-- User row of `models.py` (`users` table). -/
structure PUser where
  id : Nat
  username : List Char
  password : PHash
deriving DecidableEq

/-- Database state touched by registration and login: users and cities in
insertion (rowid) order. -/
structure Store where
  users : List PUser
  cities : List City
deriving DecidableEq

/-- ASCII-case-insensitive character comparison, as used by SQLite `LIKE`
(`Char.toLower` folds exactly the ASCII uppercase letters). -/
def lowerEq (a b : Char) : Bool :=
  a.toLower == b.toLower

/-- SQL `LIKE` pattern matching, case-insensitive (SQLAlchemy `ilike` lowers
both sides on SQLite): `%` matches any sequence, `_` any single character,
and other pattern characters match case-insensitively. First argument is the
pattern, second the data. -/
def likeMatch : List Char → List Char → Bool
  | [], s => s.isEmpty
  | p :: ps, s =>
    if p = '%' then s.tails.any (fun t => likeMatch ps t)
    else
      match s with
      | [] => false
      | c :: cs => (p == '_' || lowerEq p c) && likeMatch ps cs

/-- Embedding of `register` (`main.py:181-199`): reject with 400 when a user
with the exact same (case-sensitive) username exists; otherwise insert the
user and seed one city per `DefaultCity` template owned by the new user.
Autoincrement ids are modelled as successor of the current row count (no
user row is ever deleted in this scope). -/
def register (uname pw : List Char) (defaults : List DefaultCity)
    (st : Store) : Except Nat Store :=
  if st.users.any (fun u => u.username == uname) then .error 400
  else
    let uid := st.users.length + 1
    .ok { users := st.users ++ [⟨uid, uname, hash_password pw⟩],
          cities := st.cities ++ seedCities (st.cities.length + 1) uid defaults }

/-- Embedding of `login` (`main.py:202-211`): the query
`filter(User.username.ilike(form_data.username)).first()` scans users in
stored order and takes the first whose username matches the submitted name
case-insensitively; 401 when none matches or the password fails to verify,
otherwise a session token is issued for that user's id (the returned id). -/
def login (uname pw : List Char) (st : Store) : Except Nat Nat :=
  match st.users.find? (fun u => likeMatch uname u.username) with
  | none => .error 401
  | some u => if verify_password pw u.password then .ok u.id else .error 401

-- Equality is decidable on `Except` results, so concrete runs of the
-- embedded operations can be checked by evaluation.
deriving instance DecidableEq for Except

/-- Spec invariant on a city row: temperature and `updated_at` are
both absent or both present. -/
def tempInv (c : City) : Prop :=
  c.temperature = none ↔ c.updated_at = none

/-- The invariant holds of every city row in the store. -/
def storeInv (db : List City) : Prop :=
  ∀ c ∈ db, tempInv c

-- Both invariant forms are decidable, so concrete stores can be checked by
-- evaluation.
instance (c : City) : Decidable (tempInv c) := by
  unfold tempInv
  infer_instance

instance (db : List City) : Decidable (storeInv db) := by
  unfold storeInv
  infer_instance

/-- Two character lists are casing variants: same length and equal after
ASCII case folding. -/
def caseVariant : List Char → List Char → Bool
  | [], [] => true
  | p :: ps, c :: cs => lowerEq p c && caseVariant ps cs
  | _, _ => false

/-- Concrete inputs for the reset-atomicity run: one pre-existing city owned
by user 1. -/
def resetPrior : City :=
  { id := 1, name := "Old", latitude := 1, longitude := 1,
    temperature := some 7, updated_at := some 100, user_id := 1 }

/-- First default-city template of the reset-atomicity run. -/
def resetD0 : DefaultCity := { id := 1, name := "Paris", latitude := 2, longitude := 2 }

/-- Second default-city template of the reset-atomicity run. -/
def resetD1 : DefaultCity := { id := 2, name := "Berlin", latitude := 3, longitude := 3 }

/-- First city of the refresh-isolation run (its lookup fails). -/
def updA : City :=
  { id := 1, name := "A", latitude := 10, longitude := 10,
    temperature := none, updated_at := none, user_id := 1 }

/-- Second city of the refresh-isolation run (its lookup succeeds). -/
def updB : City :=
  { id := 2, name := "B", latitude := 20, longitude := 20,
    temperature := none, updated_at := none, user_id := 1 }

/-- Weather collaborator for the refresh-isolation run: fails exactly at
`updA`'s coordinates, returns 25 elsewhere. -/
def fetchFailA : Int → Int → Except Unit Int :=
  fun la _ => if la = 10 then .error () else .ok 25

/-- Concrete stale city (updated 90 seconds before `now = 1000`). -/
def staleW : City :=
  { id := 1, name := "S", latitude := 0, longitude := 0,
    temperature := some 5, updated_at := some 910, user_id := 7 }

/-- Concrete city owned by user 2 for the remove run. -/
def remW : City :=
  { id := 4, name := "R", latitude := 0, longitude := 0,
    temperature := none, updated_at := none, user_id := 2 }

/-- First of two equal-temperature cities for the ordering run. -/
def tieA : City :=
  { id := 1, name := "T1", latitude := 0, longitude := 0,
    temperature := some 15, updated_at := some 0, user_id := 1 }

/-- Second of two equal-temperature cities for the ordering run. -/
def tieB : City :=
  { id := 2, name := "T2", latitude := 0, longitude := 0,
    temperature := some 15, updated_at := some 0, user_id := 1 }

/-- Username `alice` in lowercase. -/
def aliceLower : List Char := ['a', 'l', 'i', 'c', 'e']

/-- Username `ALICE`, the uppercase casing variant. -/
def aliceUpper : List Char := ['A', 'L', 'I', 'C', 'E']

/-- Password of the first registered user. -/
def pwOne : List Char := ['p', 'w', '1']

/-- Password of the second registered user. -/
def pwTwo : List Char := ['p', 'w', '2']

/-- Store after registering `alice`/`pw1` into an empty store. -/
def stA : Store :=
  { users := [⟨1, aliceLower, hash_password pwOne⟩], cities := [] }

/-- Store after additionally registering `ALICE`/`pw2` (allowed: uniqueness
is case-sensitive). -/
def stB : Store :=
  { users := [⟨1, aliceLower, hash_password pwOne⟩, ⟨2, aliceUpper, hash_password pwTwo⟩],
    cities := [] }

/-- Per-city result of a fully successful refresh pass. -/
def refreshOne (fetch : Int → Int → Except Unit Int) (now : Int) (uid : Nat)
    (c : City) : City :=
  if c.user_id = uid ∧ isStale now c then
    match fetch c.latitude c.longitude with
    | .ok t => { c with temperature := some t, updated_at := some now }
    | .error _ => c
  else c

/-- Boolean staleness test unfolded to its logical content. -/
theorem isStale_iff (now : Int) (c : City) :
    isStale now c = true ↔
      (c.temperature = none ∨ ∃ t, c.updated_at = some t ∧ t < now - 60) := by
  unfold isStale
  cases hu : c.updated_at <;> cases ht : c.temperature <;> simp [hu, ht]

/-- Membership in the stale-city query. -/
theorem mem_selectStale {uid : Nat} {now : Int} {db : List City} {c : City} :
    c ∈ selectStale uid now db ↔
      c ∈ db ∧ c.user_id = uid ∧
        (c.temperature = none ∨ ∃ t, c.updated_at = some t ∧ t < now - 60) := by
  simp [selectStale, List.mem_filter, isStale_iff]

/-- Claim C4: `selectStale(owner, now)` returns exactly the owner's cities
whose temperature is absent or whose `updated_at` is earlier than `now - 60`
seconds; in particular it includes every owned city with absent temperature,
excludes an owned city updated 30 seconds before `now` (temperature present),
and includes an owned city updated 90 seconds before `now`. -/
theorem selectStale_characterization (uid : Nat) (now : Int) (db : List City) (c : City) :
    (c ∈ selectStale uid now db ↔
      c ∈ db ∧ c.user_id = uid ∧
        (c.temperature = none ∨ ∃ t, c.updated_at = some t ∧ t < now - 60)) ∧
    (c ∈ db → c.user_id = uid → c.temperature = none → c ∈ selectStale uid now db) ∧
    (c ∈ db → c.user_id = uid → c.temperature ≠ none → c.updated_at = some (now - 30) →
      c ∉ selectStale uid now db) ∧
    (c ∈ db → c.user_id = uid → c.updated_at = some (now - 90) →
      c ∈ selectStale uid now db) := by
  refine ⟨mem_selectStale, ?_, ?_, ?_⟩
  · intro hm hu ht
    exact mem_selectStale.mpr ⟨hm, hu, Or.inl ht⟩
  · intro hm hu ht hup hsel
    rcases mem_selectStale.mp hsel with ⟨-, -, h | ⟨t, het, hlt⟩⟩
    · exact ht h
    · rw [hup] at het
      injection het with het
      omega
  · intro hm hu hup
    exact mem_selectStale.mpr ⟨hm, hu, Or.inr ⟨now - 90, hup, by omega⟩⟩

/-- Witness for C4: at `now = 1000`, the city `staleW` (updated 90 seconds
earlier) is selected as stale. -/
theorem selectStale_characterization_witness :
    staleW ∈ selectStale 7 1000 [staleW] :=
  (selectStale_characterization 7 1000 [staleW] staleW).2.2.2
    (by decide) rfl (by decide)

/-- Reported deletion flag of `remove_city`: true exactly when a city with
the requested id owned by the requester exists. -/
theorem remove_city_fst_iff (uid cid : Nat) (db : List City) :
    (remove_city uid cid db).1 = true ↔ ∃ c ∈ db, c.id = cid ∧ c.user_id = uid := by
  induction db with
  | nil => simp [remove_city]
  | cons c cs ih =>
    by_cases h : c.id = cid ∧ c.user_id = uid
    · simp [remove_city, h]
    · simp [remove_city, h, ih]

/-- When no city matches both id and owner, `remove_city` is a no-op. -/
theorem remove_city_noop (uid cid : Nat) (db : List City)
    (h : ∀ c ∈ db, ¬(c.id = cid ∧ c.user_id = uid)) :
    remove_city uid cid db = (false, db) := by
  induction db with
  | nil => rfl
  | cons c cs ih =>
    have hc := h c (by simp)
    have ih' := ih (fun x hx => h x (by simp [hx]))
    simp [remove_city, hc, ih']

/-- When a matching owned city exists, `remove_city` deletes exactly the
first one in stored order. -/
theorem remove_city_deletes_first (uid cid : Nat) :
    ∀ (l₁ : List City) (c : City) (l₂ : List City),
      c.id = cid → c.user_id = uid →
      (∀ x ∈ l₁, ¬(x.id = cid ∧ x.user_id = uid)) →
      remove_city uid cid (l₁ ++ c :: l₂) = (true, l₁ ++ l₂) := by
  intro l₁
  induction l₁ with
  | nil =>
    intro c l₂ h1 h2 _
    simp [remove_city, h1, h2]
  | cons a l ih =>
    intro c l₂ h1 h2 hl
    have ha := hl a (by simp)
    have hrec := ih c l₂ h1 h2 (fun x hx => hl x (by simp [hx]))
    simp [remove_city, ha, hrec]

/-- Claim C5: `remove_city` deletes a city only if a city with that id exists
and is owned by the requester, reports whether a deletion occurred, is a
silent no-op otherwise (data entirely unchanged), and on success removes
exactly the matching city. -/
theorem remove_city_spec (uid cid : Nat) (db : List City) :
    ((remove_city uid cid db).1 = true ↔ ∃ c ∈ db, c.id = cid ∧ c.user_id = uid) ∧
    ((∀ c ∈ db, ¬(c.id = cid ∧ c.user_id = uid)) → remove_city uid cid db = (false, db)) ∧
    (∀ (l₁ : List City) (c : City) (l₂ : List City), db = l₁ ++ c :: l₂ →
      c.id = cid → c.user_id = uid →
      (∀ x ∈ l₁, ¬(x.id = cid ∧ x.user_id = uid)) →
      remove_city uid cid db = (true, l₁ ++ l₂)) := by
  refine ⟨remove_city_fst_iff uid cid db, remove_city_noop uid cid db, ?_⟩
  intro l₁ c l₂ hdb h1 h2 hl
  subst hdb
  exact remove_city_deletes_first uid cid l₁ c l₂ h1 h2 hl

/-- Witness for C5: user 2 removing city 4 from `[staleW, remW]` deletes
exactly `remW` and reports a deletion; user 5 removing city 4 from `[remW]`
(owned by user 2) is a no-op reporting no deletion. -/
theorem remove_city_spec_witness :
    remove_city 2 4 [staleW, remW] = (true, [staleW]) ∧
    remove_city 5 4 [remW] = (false, [remW]) :=
  ⟨(remove_city_spec 2 4 [staleW, remW]).2.2 [staleW] remW [] rfl rfl rfl (by decide),
   (remove_city_spec 5 4 [remW]).2.1 (by decide)⟩

/-- Transitivity of the SQL descending temperature order. -/
theorem tempDescLe_trans (a b c : City) (h1 : tempDescLe a b = true)
    (h2 : tempDescLe b c = true) : tempDescLe a c = true := by
  unfold tempDescLe at *
  cases ha : a.temperature <;> cases hb : b.temperature <;> cases hc : c.temperature <;>
    simp_all
  omega

/-- Totality of the SQL descending temperature order. -/
theorem tempDescLe_total (a b : City) : (tempDescLe a b || tempDescLe b a) = true := by
  unfold tempDescLe
  cases ha : a.temperature <;> cases hb : b.temperature <;> simp
  omega

/-- Claim C6: `listFor(owner)` returns all of the owner's cities, ordered by
temperature descending with absent-temperature cities last, and the order is
stable for equal temperatures (ties keep their stored order). -/
theorem listFor_ordering (uid : Nat) (db : List City) :
    (listFor uid db).Perm (db.filter (fun c => c.user_id = uid)) ∧
    (listFor uid db).Pairwise (fun a b => tempDescLe a b = true) ∧
    (∀ a b, List.Sublist [a, b] (listFor uid db) → a.temperature = none → b.temperature = none) ∧
    (∀ a b x y, List.Sublist [a, b] (listFor uid db) → a.temperature = some x →
      b.temperature = some y → y ≤ x) ∧
    (∀ a b, List.Sublist [a, b] (db.filter (fun c => c.user_id = uid)) →
      a.temperature = b.temperature → List.Sublist [a, b] (listFor uid db)) := by
  have hsorted : (listFor uid db).Pairwise (fun a b => tempDescLe a b = true) :=
    List.sorted_mergeSort tempDescLe_trans tempDescLe_total _
  refine ⟨List.mergeSort_perm _ _, hsorted, ?_, ?_, ?_⟩
  · intro a b hsub ha
    have hp : List.Pairwise (fun x y => tempDescLe x y = true) [a, b] :=
      List.Pairwise.sublist hsub hsorted
    have hab : tempDescLe a b = true :=
      (@List.pairwise_pair City (fun x y => tempDescLe x y = true) a b).mp hp
    unfold tempDescLe at hab
    cases hb : b.temperature with
    | none => rfl
    | some y => rw [ha, hb] at hab; exact absurd hab (by simp)
  · intro a b x y hsub hx hy
    have hp : List.Pairwise (fun x y => tempDescLe x y = true) [a, b] :=
      List.Pairwise.sublist hsub hsorted
    have hab : tempDescLe a b = true :=
      (@List.pairwise_pair City (fun x y => tempDescLe x y = true) a b).mp hp
    unfold tempDescLe at hab
    rw [hx, hy] at hab
    simpa using hab
  · intro a b hsub heq
    refine List.pair_sublist_mergeSort tempDescLe_trans tempDescLe_total ?_ hsub
    unfold tempDescLe
    rw [heq]
    cases b.temperature <;> simp

/-- Witness for C6: the two equal-temperature cities `tieA`, `tieB` keep
their stored order in the rendered list. -/
theorem listFor_ordering_witness :
    List.Sublist [tieA, tieB] (listFor 1 [tieA, tieB]) :=
  (listFor_ordering 1 [tieA, tieB]).2.2.2.2 tieA tieB (by decide) rfl

/-- Every city produced by the seeding helper has absent temperature and
timestamp, so it satisfies the invariant. -/
theorem seedCities_tempInv (base uid : Nat) (defaults : List DefaultCity) :
    storeInv (seedCities base uid defaults) := by
  intro c hc
  rcases List.mem_map.mp hc with ⟨p, -, rfl⟩
  exact ⟨fun _ => rfl, fun _ => rfl⟩

/-- A successful refresh loop preserves the invariant: untouched cities are
kept, refreshed cities get both temperature and timestamp. -/
theorem refreshLoop_inv (fetch : Int → Int → Except Unit Int) (now : Int) (uid : Nat) :
    ∀ (db db2 : List City), refreshLoop fetch now uid db = some db2 →
      storeInv db → storeInv db2 := by
  intro db
  induction db with
  | nil =>
    intro db2 h hinv
    simp [refreshLoop] at h
    subst h
    intro c hc
    cases hc
  | cons c cs ih =>
    intro db2 h hinv
    have hinv' : storeInv cs := fun y hy => hinv y (List.mem_cons_of_mem _ hy)
    unfold refreshLoop at h
    by_cases hsel : c.user_id = uid ∧ isStale now c
    · rw [if_pos hsel] at h
      cases hf : fetch c.latitude c.longitude with
      | error e => rw [hf] at h; cases h
      | ok t =>
        rw [hf] at h
        cases hr : refreshLoop fetch now uid cs with
        | none => rw [hr] at h; cases h
        | some rest =>
          rw [hr] at h
          simp at h
          subst h
          intro x hx
          rcases List.mem_cons.mp hx with hx | hx
          · subst hx
            exact ⟨fun h => by simp at h, fun h => by simp at h⟩
          · exact ih rest hr hinv' x hx
    · rw [if_neg hsel] at h
      cases hr : refreshLoop fetch now uid cs with
      | none => rw [hr] at h; cases h
      | some rest =>
        rw [hr] at h
        simp at h
        subst h
        intro x hx
        rcases List.mem_cons.mp hx with hx | hx
        · subst hx; exact hinv x (List.mem_cons_self _ _)
        · exact ih rest hr hinv' x hx

/-- Claim C8: every operation that creates or mutates a city — explicit add,
registration seeding, reset seeding, weather refresh — preserves the
invariant that temperature and `updated_at` are both absent or both present
in every committed store state. -/
theorem cityOps_preserve_tempInv (uid cid nextId : Nat) (name : String)
    (lat lon : Int) (defaults : List DefaultCity) (failAt : Option Nat)
    (fetch : Int → Int → Except Unit Int) (now : Int)
    (uname pw : List Char) (st st2 : Store) (db : List City) :
    (storeInv db → storeInv (add_city uid cid name lat lon db)) ∧
    (storeInv st.cities → register uname pw defaults st = .ok st2 → storeInv st2.cities) ∧
    (storeInv db → storeInv (reset_cities uid nextId defaults failAt db)) ∧
    (storeInv db → storeInv (update_weather fetch now uid db)) := by
  refine ⟨?_, ?_, ?_, ?_⟩
  · intro hinv c hc
    rcases List.mem_append.mp hc with hc | hc
    · exact hinv c hc
    · rcases List.mem_singleton.mp hc with rfl
      exact ⟨fun _ => rfl, fun _ => rfl⟩
  · intro hinv hreg
    by_cases hany : st.users.any (fun u => u.username == uname)
    · simp [register, hany] at hreg
    · simp [register, hany] at hreg
      subst hreg
      intro c hc
      rcases List.mem_append.mp hc with hc | hc
      · exact hinv c hc
      · exact seedCities_tempInv _ _ defaults c hc
  · intro hinv
    unfold reset_cities
    by_cases hm : commitsDone failAt defaults.length = 0
    · simpa [hm] using hinv
    · simp only [hm, if_neg hm]
      intro c hc
      rcases List.mem_append.mp hc with hc | hc
      · exact hinv c (List.mem_filter.mp hc).1
      · exact seedCities_tempInv _ _ _ c hc
  · intro hinv
    unfold update_weather
    cases hr : refreshLoop fetch now uid db with
    | none => exact hinv
    | some db2 => exact refreshLoop_inv fetch now uid db db2 hr hinv

/-- Witness for C8: concrete instances of all four operations preserve the
invariant, starting from the invariant-satisfying stores. -/
theorem cityOps_preserve_tempInv_witness :
    storeInv (add_city 1 2 "X" 0 0 [staleW]) ∧
    storeInv (reset_cities 1 10 [resetD0] none [staleW]) ∧
    storeInv (update_weather (fun _ _ => .ok 20) 1000 7 [staleW]) :=
  ⟨(cityOps_preserve_tempInv 1 2 10 "X" 0 0 [] none (fun _ _ => .ok 20) 1000
      [] [] ⟨[], []⟩ ⟨[], []⟩ [staleW]).1 (by decide),
   (cityOps_preserve_tempInv 1 2 10 "X" 0 0 [resetD0] none (fun _ _ => .ok 20) 1000
      [] [] ⟨[], []⟩ ⟨[], []⟩ [staleW]).2.2.1 (by decide),
   (cityOps_preserve_tempInv 7 2 10 "X" 0 0 [] none (fun _ _ => .ok 20) 1000
      [] [] ⟨[], []⟩ ⟨[], []⟩ [staleW]).2.2.2 (by decide)⟩

/-- The refresh loop aborts before the commit exactly when some selected
city's lookup fails. -/
theorem refreshLoop_eq_none_iff (fetch : Int → Int → Except Unit Int)
    (now : Int) (uid : Nat) :
    ∀ db : List City, (refreshLoop fetch now uid db = none ↔
      ∃ c ∈ db, (c.user_id = uid ∧ isStale now c) ∧
        fetch c.latitude c.longitude = .error ()) := by
  intro db
  induction db with
  | nil => simp [refreshLoop]
  | cons c cs ih =>
    unfold refreshLoop
    by_cases hsel : c.user_id = uid ∧ isStale now c
    · rw [if_pos hsel]
      cases hf : fetch c.latitude c.longitude with
      | error e =>
        cases e
        refine ⟨fun _ => ⟨c, List.mem_cons_self _ _, hsel, hf⟩, fun _ => rfl⟩
      | ok t =>
        simp only [Option.map_eq_none']
        rw [ih]
        simp [hsel, hf]
    · rw [if_neg hsel]
      simp only [Option.map_eq_none']
      rw [ih]
      simp [hsel]

/-- When every selected lookup succeeds, the loop reaches the commit with
each selected city updated in place. -/
theorem refreshLoop_eq_some (fetch : Int → Int → Except Unit Int)
    (now : Int) (uid : Nat) :
    ∀ db : List City,
      (∀ c ∈ db, (c.user_id = uid ∧ isStale now c) →
        fetch c.latitude c.longitude ≠ .error ()) →
      refreshLoop fetch now uid db = some (db.map (refreshOne fetch now uid)) := by
  intro db
  induction db with
  | nil => intro _; rfl
  | cons c cs ih =>
    intro h
    have hcs := ih (fun x hx => h x (List.mem_cons_of_mem _ hx))
    unfold refreshLoop
    by_cases hsel : c.user_id = uid ∧ isStale now c
    · rw [if_pos hsel]
      cases hf : fetch c.latitude c.longitude with
      | error e =>
        cases e
        exact absurd hf (h c (List.mem_cons_self _ _) hsel)
      | ok t =>
        rw [hcs]
        simp [List.map_cons, refreshOne, hsel, hf]
    · rw [if_neg hsel, hcs]
      simp [List.map_cons, refreshOne, hsel]

/-- Claim C10: in `update_weather` the commit happens once, after all
selected lookups: if any selected city's lookup fails, no change is
persisted for any city (the stored state equals the state before the
request); if all succeed, the one commit applies every selected city's
update. -/
theorem update_weather_single_commit (fetch : Int → Int → Except Unit Int)
    (now : Int) (uid : Nat) (db : List City) :
    ((∃ c ∈ selectStale uid now db, fetch c.latitude c.longitude = .error ()) →
      update_weather fetch now uid db = db) ∧
    ((∀ c ∈ selectStale uid now db, fetch c.latitude c.longitude ≠ .error ()) →
      update_weather fetch now uid db = db.map (refreshOne fetch now uid)) := by
  constructor
  · intro ⟨c, hc, hf⟩
    have hmem := List.mem_filter.mp hc
    have hnone : refreshLoop fetch now uid db = none :=
      (refreshLoop_eq_none_iff fetch now uid db).mpr
        ⟨c, hmem.1, by simpa using hmem.2, hf⟩
    unfold update_weather
    rw [hnone]
  · intro h
    have hsome := refreshLoop_eq_some fetch now uid db
      (fun c hc hsel => h c (List.mem_filter.mpr ⟨hc, by simpa using hsel⟩))
    unfold update_weather
    rw [hsome]

/-- Witness for C10: with a collaborator failing at `updA`'s coordinates,
the request leaves the two-city store exactly as it was; with an
all-success collaborator, both stale cities are updated by the one commit. -/
theorem update_weather_single_commit_witness :
    update_weather fetchFailA 1000 1 [updA, updB] = [updA, updB] ∧
    update_weather (fun _ _ => .ok 25) 1000 1 [updA, updB] =
      List.map (refreshOne (fun _ _ => .ok 25) 1000 1) [updA, updB] :=
  ⟨(update_weather_single_commit fetchFailA 1000 1 [updA, updB]).1
      ⟨updA, by decide, by decide⟩,
   (update_weather_single_commit (fun _ _ => .ok 25) 1000 1 [updA, updB]).2
      (by decide)⟩

/-- Claim C1 refuted on the code: `reset_cities` commits inside the seed loop
(`main.py:150`), so when the commit of the second template raises, the
committed state has the prior city deleted and only the first template's
city inserted — a partial mix, neither the prior list (rolled back) nor the
full new list. -/
theorem reset_cities_partial_commit :
    reset_cities 1 10 [resetD0, resetD1] (some 1) [resetPrior] =
      [cityFromDefault 10 1 resetD0] ∧
    resetPrior ∉ reset_cities 1 10 [resetD0, resetD1] (some 1) [resetPrior] ∧
    reset_cities 1 10 [resetD0, resetD1] (some 1) [resetPrior] ≠ [resetPrior] ∧
    reset_cities 1 10 [resetD0, resetD1] (some 1) [resetPrior] ≠
      reset_cities 1 10 [resetD0, resetD1] none [resetPrior] := by decide

/-- Claim C2 refuted on the code: on a malformed token, a tampered
(signature-mismatch) token, and an expired token alike, `validate_token`
raises `NameError` (the exception names in its handlers are never imported,
`main.py:10`) instead of returning the "invalid" result `None`; the three
outcomes are identical, but they are a thrown fault, not a returned value. -/
theorem validate_token_raises :
    validate_token [103, 97, 114, 98, 97, 103, 101] 50 = .error .nameError ∧
    validate_token ((create_token 2 0).set 0 51) 50 = .error .nameError ∧
    validate_token (create_token 2 0) 3601 = .error .nameError ∧
    validate_token [103, 97, 114, 98, 97, 103, 101] 50 =
      validate_token (create_token 2 0) 3601 := by decide

/-- Claim C3 refuted on the code: with two stale cities where only the first
lookup fails, the second city's lookup would succeed (`fetchFailA` returns
25 at its coordinates), yet the whole batch is aborted before the commit and
the second city's temperature and `updated_at` remain unset. -/
theorem update_weather_not_isolated :
    updB ∈ selectStale 1 1000 [updA, updB] ∧
    fetchFailA updB.latitude updB.longitude = .ok 25 ∧
    update_weather fetchFailA 1000 1 [updA, updB] = [updA, updB] ∧
    (update_weather fetchFailA 1000 1 [updA, updB]).all
      (fun c => c.temperature == none && c.updated_at == none) := by decide

set_option maxRecDepth 4000 in
/-- Claim C7, settled against the code: a token issued for user 1 validates
to user 1 at every elapsed time within the 3600-second window; but once more
than 3600 seconds have elapsed, and likewise when any single byte of the
token is changed, validation raises `NameError` (missing exception imports,
`main.py:10`) rather than returning the "invalid" result. -/
theorem token_lifecycle :
    (∀ e ≤ 3600, validate_token (create_token 1 0) e = .ok (some 1)) ∧
    validate_token (create_token 1 0) 3601 = .error .nameError ∧
    (∀ i < (create_token 1 0).length, ∀ b < 256,
      b ≠ (create_token 1 0).getD i 0 →
        validate_token ((create_token 1 0).set i b) 50 = .error .nameError) := by
  refine ⟨?_, by decide, by decide⟩
  intro e he
  have key : serializerLoads (create_token 1 0) 3600 e =
      if e - 0 > 3600 then Except.error LoadErr.signatureExpired
      else Except.ok 1 := rfl
  unfold validate_token
  rw [key, if_neg (by omega)]

/-- A casing variant of a stored string matches it under case-insensitive
`LIKE`: literal characters compare case-folded, and the wildcards `%`/`_`
match the corresponding single character as well. -/
theorem likeMatch_of_caseVariant :
    ∀ (p s : List Char), caseVariant p s = true → likeMatch p s = true := by
  intro p
  induction p with
  | nil =>
    intro s h
    cases s with
    | nil => rfl
    | cons c cs => simp [caseVariant] at h
  | cons a ps ih =>
    intro s h
    cases s with
    | nil => simp [caseVariant] at h
    | cons c cs =>
      simp only [caseVariant, Bool.and_eq_true] at h
      obtain ⟨h1, h2⟩ := h
      have ihr := ih cs h2
      unfold likeMatch
      by_cases ha : a = '%'
      · rw [if_pos ha]
        exact List.any_eq_true.mpr ⟨cs, (List.mem_tails _ _).mpr (List.suffix_cons c cs), ihr⟩
      · rw [if_neg ha]
        simp [h1, ihr]

/-- An ordered scan returns the first row satisfying the predicate. -/
theorem find?_first {p : PUser → Bool} :
    ∀ (l₁ : List PUser) (u : PUser) (l₂ : List PUser),
      (∀ v ∈ l₁, p v = false) → p u = true →
      (l₁ ++ u :: l₂).find? p = some u := by
  intro l₁
  induction l₁ with
  | nil =>
    intro u l₂ _ hu
    simp [List.find?_cons_of_pos, hu]
  | cons a l ih =>
    intro u l₂ hl hu
    have ha : p a = false := hl a (by simp)
    rw [List.cons_append, List.find?_cons_of_neg _ (by simp [ha])]
    exact ih u l₂ (fun v hv => hl v (by simp [hv])) hu

/-- Claim C9 as amended: registration uniqueness is case-sensitive (an
exact-case duplicate is rejected with 400, anything else is inserted), and
login with a casing variant of a registered username and that user's correct
password succeeds provided no earlier-registered user's username also
matches the submitted name case-insensitively. -/
theorem register_login_case_semantics (uname pw given : List Char)
    (defaults : List DefaultCity) (st : Store) (u : PUser) (l₁ l₂ : List PUser) :
    ((∃ v ∈ st.users, v.username = uname) → register uname pw defaults st = .error 400) ∧
    ((∀ v ∈ st.users, v.username ≠ uname) →
      register uname pw defaults st =
        .ok { users := st.users ++ [⟨st.users.length + 1, uname, hash_password pw⟩],
              cities := st.cities ++
                seedCities (st.cities.length + 1) (st.users.length + 1) defaults }) ∧
    (st.users = l₁ ++ u :: l₂ → caseVariant given u.username = true →
      (∀ v ∈ l₁, likeMatch given v.username = false) →
      login given u.password.plain st = .ok u.id) := by
  refine ⟨?_, ?_, ?_⟩
  · intro ⟨v, hv, hname⟩
    have hany : st.users.any (fun w => w.username == uname) = true :=
      List.any_eq_true.mpr ⟨v, hv, by simp [hname]⟩
    simp [register, hany]
  · intro h
    have hany : st.users.any (fun w => w.username == uname) = false := by
      rw [List.any_eq_false]
      intro v hv
      simp [h v hv]
    simp [register, hany]
  · intro hsplit hcv hfirst
    unfold login
    rw [hsplit, find?_first l₁ u l₂ hfirst
      (likeMatch_of_caseVariant given u.username hcv)]
    simp [verify_password]

/-- Counterexample to claim C9 as stated: case-sensitive uniqueness admits
registering both `alice`/`pw1` and `ALICE`/`pw2`; login as `ALICE` with the
correct password `pw2` then fails with 401, because the case-insensitive
lookup takes the earlier-registered `alice` and verifies `pw2` against
`alice`'s hash. -/
theorem login_case_variant_counterexample :
    register aliceLower pwOne [] ⟨[], []⟩ = .ok stA ∧
    register aliceUpper pwTwo [] stA = .ok stB ∧
    login aliceUpper pwTwo stB = .error 401 ∧
    verify_password pwTwo (hash_password pwTwo) = true := by decide

/-- Witness for the amended C9: re-registering the exact-case `alice` into
`stA` fails with 400, while logging in as `ALICE` with `alice`'s password
succeeds when `alice` is the only (hence first) case-insensitive match. -/
theorem register_login_case_semantics_witness :
    register aliceLower pwOne [] stA = .error 400 ∧
    login aliceUpper pwOne stA = .ok 1 :=
  ⟨(register_login_case_semantics aliceLower pwOne aliceUpper [] stA
      ⟨1, aliceLower, hash_password pwOne⟩ [] []).1
      ⟨⟨1, aliceLower, hash_password pwOne⟩, by decide, rfl⟩,
   (register_login_case_semantics aliceLower pwOne aliceUpper [] stA
      ⟨1, aliceLower, hash_password pwOne⟩ [] []).2.2 rfl (by decide) (by decide)⟩

/-- Witness for C7's conditional parts: at elapsed time 100 the token still
validates, and flipping the first byte of the token makes validation raise. -/
theorem token_lifecycle_witness :
    validate_token (create_token 1 0) 100 = .ok (some 1) ∧
    validate_token ((create_token 1 0).set 0 50) 50 = .error .nameError :=
  ⟨token_lifecycle.1 100 (by decide),
   token_lifecycle.2.2 0 (by decide) 50 (by decide) (by decide)⟩
